import Mathlib

/-!
A shallow embedding of the core of the `sinuous` Sonos TUI controller
(`src/sonos.rs` and the command/view types it uses), together with proofs
about the embedded operations.

Conventions of the embedding:
* external `sonor` device handles are represented by their stable UUID
  strings; every network side effect is mediated by an oracle record whose
  fields give the outcome of each device-control call;
* Rust `Result` becomes `Except String`, `Option` becomes `Option`;
* a Rust panic (`expect`, out-of-bounds index) is modelled as `none`;
* machine integers (`usize`, `u16`) become `Nat`; the code never relies on
  overflow, and `usize::saturating_sub` becomes truncated `Nat` subtraction;
* string scanning (`str::find`, `split`, `replace`, `starts_with`,
  `contains`) is re-implemented by structural recursion over `List Char`,
  with the same first-occurrence, non-overlapping, left-to-right semantics
  as the Rust standard library.
-/

namespace Sinuous

/-- View mode of the UI (`ViewMode`): queue view or favorites view. -/
inductive ViewMode where
  | Queue
  | Favorites
deriving DecidableEq

/-- Navigation direction for the favorites list (`Direction`). -/
inductive Direction where
  | Up
  | Down
deriving DecidableEq

/-- Opaque track descriptor (`sonor::TrackInfo`); its contents are never
inspected by the engine, so an opaque token suffices. -/
abbrev TrackInfo := String

/-- Opaque queue entry (`sonor::Track`). -/
abbrev Track := String

/-- Embedding of `FavoritePlaylist` from `src/sonos.rs`. -/
structure FavoritePlaylist where
  title : String
  description : String
  uri : String
  metadata : String
deriving DecidableEq

/-- Embedding of `sonor::SpeakerInfo`: the per-speaker record inside a zone group
(`uuid()` and `name()` are the only accessors the code uses). -/
structure SpeakerInfo where
  uuid : String
  name : String
deriving DecidableEq

/-- Embedding of `SpeakerGroup` from `src/sonos.rs`. -/
structure SpeakerGroup where
  coordinator : String
  speakers : List SpeakerInfo
deriving DecidableEq

/-- Operator command (`Action` enum), as matched in `handle_command`. -/
inductive Action where
  | Play
  | Pause
  | Next
  | Prev
  | VolAdjust (v : Int)
  | NextSpeaker
  | PrevSpeaker
  | SwitchView (v : ViewMode)
  | NavigateFavorites (d : Direction)
  | PlayFavorite (idx : Nat)
  | Nop
deriving DecidableEq

/-- One device-control call issued by the engine, tagged with the UUID of
the speaker it targets (used to trace which network calls a command
handler performs). -/
inductive DevCall where
  | play (uuid : String)
  | pause (uuid : String)
  | next (uuid : String)
  | previous (uuid : String)
  | setVolumeRelative (uuid : String) (delta : Int)
  | clearQueue (uuid : String)
  | addURIToQueue (uuid : String)
  | queueNext (uuid : String)
deriving DecidableEq

/-- Outcome oracle for the device-control client: for each operation and
target speaker UUID it fixes the result the network call would return. -/
structure DevOracle where
  play : String → Except String Unit
  pause : String → Except String Unit
  next : String → Except String Unit
  previous : String → Except String Unit
  set_volume_relative : String → Int → Except String Unit
  clear_queue : String → Except String Unit
  add_uri_action : String → String → Except String Unit
  queue_next : String → String → String → Except String Unit
  is_playing : String → Except String Bool
  volume : String → Except String Nat
  track : String → Except String (Option TrackInfo)
  queue : String → Except String (List Track)

/-- Mutable state of `SonosService` (the channel endpoints are external;
the `Speaker` handles in `speakers_by_uuid` are represented by the set of
UUID keys, since every device call goes through the oracle). -/
structure SonosService where
  groups : List SpeakerGroup
  selected_group : Nat
  speakers_by_uuid : List String
  current_view : ViewMode
  favorites : List FavoritePlaylist
  selected_favorite : Nat
  cached_is_playing : Bool
  cached_volume : Nat
  cached_now_playing : Option TrackInfo
  cached_queue : List Track
deriving DecidableEq

/-- Embedding of `SpeakerState`: the published snapshot. -/
structure SpeakerState where
  is_playing : Bool
  current_volume : Nat
  group_names : List String
  selected_group : Nat
  now_playing : Option TrackInfo
  queue : List Track
  current_view : ViewMode
  favorites : List FavoritePlaylist
  selected_favorite : Nat
deriving DecidableEq

/-! ### String helpers

Structural re-implementations of the Rust string operations the code
uses, over `List Char`. -/

/-- Index of the first occurrence of `pat` in the text (Rust
`str::find(pat)`), as a character offset. -/
def findSub (pat : List Char) : List Char → Option Nat
  | [] => if pat.isPrefixOf ([] : List Char) then some 0 else none
  | c :: rest =>
    if pat.isPrefixOf (c :: rest) then some 0
    else
      match findSub pat rest with
      | some i => some (i + 1)
      | none => none

/-- Rust `str::contains(pat)`. -/
def str_contains (text pat : String) : Bool :=
  (findSub pat.toList text.toList).isSome

/-- Rust `str::starts_with(pat)`. -/
def starts_with (text pat : String) : Bool :=
  pat.toList.isPrefixOf text.toList

/-- Worker for `splitOnCL`: scans the text one character at a time;
while `skip` is positive we are consuming the tail of a separator match;
`acc` holds the current segment reversed. Matches are non-overlapping and
found left to right, as with Rust `str::split`. -/
def splitAux (sep : List Char) : List Char → Nat → List Char → List (List Char)
  | [], _, acc => [acc.reverse]
  | _ :: rest, skip + 1, acc => splitAux sep rest skip acc
  | c :: rest, 0, acc =>
    if sep.isPrefixOf (c :: rest) then
      acc.reverse :: splitAux sep rest (sep.length - 1) []
    else
      splitAux sep rest 0 (c :: acc)

/-- Rust `str::split(sep)` for a non-empty separator, collected to a list. -/
def splitOnCL (sep text : List Char) : List (List Char) :=
  splitAux sep text 0 []

/-- Worker for `replaceCL`, same scanning discipline as `splitAux`. -/
def replaceAux (pat repl : List Char) : List Char → Nat → List Char
  | [], _ => []
  | _ :: rest, skip + 1 => replaceAux pat repl rest skip
  | c :: rest, 0 =>
    if pat.isPrefixOf (c :: rest) then
      repl ++ replaceAux pat repl rest (pat.length - 1)
    else
      c :: replaceAux pat repl rest 0

/-- Rust `str::replace(pat, repl)` for a non-empty pattern. -/
def replaceCL (text pat repl : List Char) : List Char :=
  replaceAux pat repl text 0

/-- Rust `slice::join(sep)` for strings, specialised to the `" + "`
separator used for group display names. -/
def join_names : List String → String
  | [] => ""
  | [n] => n
  | n :: rest => n ++ " + " ++ join_names rest

/-- Embedding of `html_unescape` from `src/sonos.rs`: the five chained `replace`
calls, in source order. -/
def html_unescape (s : String) : String :=
  String.mk
    (replaceCL
      (replaceCL
        (replaceCL
          (replaceCL
            (replaceCL s.toList "&amp;".toList "&".toList)
            "&lt;".toList "<".toList)
          "&gt;".toList ">".toList)
        "&quot;".toList "\x22".toList)
      "&apos;".toList "\x27".toList)

/-! ### Group construction and selection -/

/-- Helper mirroring the `position` + `remove` pair in `SpeakerGroup::new`:
find the first member whose UUID equals the coordinator, remove it, and
return it together with the remaining members in order; `none` when no
member matches (the `expect` panic case). -/
def remove_coordinator (coordinator : String) :
    List SpeakerInfo → Option (SpeakerInfo × List SpeakerInfo)
  | [] => none
  | s :: rest =>
    if s.uuid = coordinator then some (s, rest)
    else
      match remove_coordinator coordinator rest with
      | none => none
      | some (c, rest') => some (c, s :: rest')

/-- Embedding of `SpeakerGroup::new`: `none` models the
`expect("Coordinator of the group was not found ...")` panic; otherwise
the member list is reordered so the coordinator comes first. -/
def SpeakerGroup.new (coordinator : String) (speakers : List SpeakerInfo) :
    Option SpeakerGroup :=
  match remove_coordinator coordinator speakers with
  | none => none
  | some (c, rest) => some { coordinator := coordinator, speakers := c :: rest }

/-- Embedding of `SpeakerGroup::name`: member names joined by `" + "`. -/
def SpeakerGroup.name (g : SpeakerGroup) : String :=
  join_names (g.speakers.map SpeakerInfo.name)

/-- Embedding of `SonosService::select_prev_group`, as a pure function of the group
count and the current index. Note: decrementing from 0 sets the index to
`groups.len()`, exactly as the source does. -/
def select_prev_group (groupsLen sel : Nat) : Nat :=
  if sel = 0 then groupsLen else sel - 1

/-- Embedding of `SonosService::select_next_group`, as a pure function of the group
count and the current index. -/
def select_next_group (groupsLen sel : Nat) : Nat :=
  if sel + 1 ≥ groupsLen then 0 else sel + 1

/-- The favorites-navigation arm of `handle_command`
(`Action::NavigateFavorites`), as a pure function of the favorites length,
the direction and the current index (`usize::saturating_sub` is `Nat`
subtraction). -/
def navigate_favorites (favLen : Nat) (dir : Direction) (idx : Nat) : Nat :=
  match dir with
  | .Up => if idx > 0 then idx - 1 else idx
  | .Down => if idx < favLen - 1 then idx + 1 else idx

/-- Embedding of `SonosService::current_speaker`: the coordinator UUID of the selected
group, provided a speaker handle with that UUID is in the map. -/
def current_speaker (s : SonosService) : Option String :=
  (s.groups[s.selected_group]?).bind fun group =>
    if group.coordinator ∈ s.speakers_by_uuid then some group.coordinator
    else none

/-- The literal `AddURIToQueue` payload built in the `PlayFavorite` arm
(note it embeds the still-escaped `uri`/`metadata` fields). -/
def add_uri_payload (f : FavoritePlaylist) : String :=
  "<InstanceID>0</InstanceID>\n<EnqueuedURI>" ++ f.uri ++
    "</EnqueuedURI>\n<EnqueuedURIMetaData>" ++ f.metadata ++
    "</EnqueuedURIMetaData>\n<DesiredFirstTrackNumberEnqueued>0</DesiredFirstTrackNumberEnqueued>\n<EnqueueAsNext>1</EnqueueAsNext>"

/-! ### Command handling -/

/-- Embedding of `SonosService::handle_command`: returns the new state, the trace of
device-control calls issued (in order), and the `Result<bool>` saying
whether a refresh is warranted. -/
def handle_command (o : DevOracle) (s : SonosService) (cmd : Action) :
    SonosService × List DevCall × Except String Bool :=
  match cmd with
  | .Play =>
    match current_speaker s with
    | none => (s, [], .error "No selected group")
    | some uuid =>
      match o.play uuid with
      | .ok _ => (s, [.play uuid], .ok true)
      | .error e => (s, [.play uuid], .error e)
  | .Pause =>
    match current_speaker s with
    | none => (s, [], .error "No selected group")
    | some uuid =>
      match o.pause uuid with
      | .ok _ => (s, [.pause uuid], .ok true)
      | .error e => (s, [.pause uuid], .error e)
  | .Next =>
    match current_speaker s with
    | none => (s, [], .error "No selected group")
    | some uuid =>
      match o.next uuid with
      | .ok _ => (s, [.next uuid], .ok true)
      | .error e => (s, [.next uuid], .error e)
  | .Prev =>
    match current_speaker s with
    | none => (s, [], .error "No selected group")
    | some uuid =>
      match o.previous uuid with
      | .ok _ => (s, [.previous uuid], .ok true)
      | .error e => (s, [.previous uuid], .error e)
  | .VolAdjust v =>
    match current_speaker s with
    | none => (s, [], .error "No selected group")
    | some uuid =>
      match o.set_volume_relative uuid v with
      | .ok _ => (s, [.setVolumeRelative uuid v], .ok true)
      | .error e => (s, [.setVolumeRelative uuid v], .error e)
  | .NextSpeaker =>
    ({ s with selected_group := select_next_group s.groups.length s.selected_group },
      [], .ok true)
  | .PrevSpeaker =>
    ({ s with selected_group := select_prev_group s.groups.length s.selected_group },
      [], .ok true)
  | .SwitchView v =>
    ({ s with current_view := v }, [], .ok false)
  | .NavigateFavorites d =>
    ({ s with
        selected_favorite :=
          navigate_favorites s.favorites.length d s.selected_favorite },
      [], .ok false)
  | .PlayFavorite index =>
    match s.favorites[index]? with
    | none => (s, [], .ok false)
    | some favorite =>
      match current_speaker s with
      | none => (s, [], .error "No selected group")
      | some uuid =>
        -- clear_queue is best-effort: its result is only logged
        let unescaped_uri := html_unescape favorite.uri
        let unescaped_metadata := html_unescape favorite.metadata
        if starts_with unescaped_uri "x-rincon-cpcontainer:" then
          match o.add_uri_action uuid (add_uri_payload favorite) with
          | .ok _ =>
            match o.play uuid with
            | .ok _ =>
              (s, [.clearQueue uuid, .addURIToQueue uuid, .play uuid], .ok true)
            | .error e =>
              (s, [.clearQueue uuid, .addURIToQueue uuid, .play uuid], .error e)
          | .error e =>
            (s, [.clearQueue uuid, .addURIToQueue uuid], .error e)
        else
          match o.queue_next uuid unescaped_uri unescaped_metadata with
          | .ok _ =>
            match o.next uuid with
            | .ok _ =>
              (s, [.clearQueue uuid, .queueNext uuid, .next uuid], .ok true)
            | .error e =>
              (s, [.clearQueue uuid, .queueNext uuid, .next uuid], .error e)
          | .error e =>
            (s, [.clearQueue uuid, .queueNext uuid], .error e)
  | .Nop => (s, [], .ok false)

/-! ### Refresh, snapshot, and the command-arrival wake -/

/-- Embedding of `SonosService::refresh_state`: resolves the selected group's
coordinator, then assigns the four cached fields one at a time, each from
its own awaited call, propagating the first error with `?`. -/
def refresh_state (o : DevOracle) (s : SonosService) :
    SonosService × Except String Unit :=
  match s.groups[s.selected_group]? with
  | none => (s, .error "No selected group")
  | some g =>
    if g.coordinator ∈ s.speakers_by_uuid then
      match o.is_playing g.coordinator with
      | .error e => (s, .error e)
      | .ok p =>
        let s1 := { s with cached_is_playing := p }
        match o.volume g.coordinator with
        | .error e => (s1, .error e)
        | .ok v =>
          let s2 := { s1 with cached_volume := v }
          match o.track g.coordinator with
          | .error e => (s2, .error e)
          | .ok t =>
            let s3 := { s2 with cached_now_playing := t }
            match o.queue g.coordinator with
            | .error e => (s3, .error e)
            | .ok q => ({ s3 with cached_queue := q }, .ok ())
    else (s, .error "Speaker not found")

/-- Embedding of `SonosService::build_state` (the source wraps the value in `Ok` but
can never fail). -/
def build_state (s : SonosService) : SpeakerState :=
  { is_playing := s.cached_is_playing
    current_volume := s.cached_volume
    group_names := s.groups.map SpeakerGroup.name
    selected_group := s.selected_group
    now_playing := s.cached_now_playing
    queue := s.cached_queue
    current_view := s.current_view
    favorites := s.favorites
    selected_favorite := s.selected_favorite }

/-- Embedding of `SpeakerState::group_name`, which indexes `group_names` by
`selected_group` with no bounds check: `none` models the index
out-of-bounds panic. -/
def SpeakerState.group_name (st : SpeakerState) : Option String :=
  st.group_names[st.selected_group]?

/-- Result filter used by the batching loop: a command requested a refresh
exactly when its handler returned `Ok(true)`. -/
def requested_refresh : Except String Bool → Bool
  | .ok b => b
  | .error _ => false

/-- The per-command results of a batch, with the state threaded through
the handlers in order. -/
def batch_results (o : DevOracle) : SonosService → List Action → List (Except String Bool)
  | _, [] => []
  | s, c :: cs =>
    match handle_command o s c with
    | (s', _, r) => r :: batch_results o s' cs

/-- The command-processing part of the command-arrival branch: handle each
command of the batch in order, folding the `needs_refresh` flag exactly as
the source loop does (an error leaves the flag as it was). -/
def process_cmds (o : DevOracle) : SonosService → List Action → SonosService × Bool
  | s, [] => (s, false)
  | s, c :: cs =>
    match handle_command o s c with
    | (s', _, r) =>
      match process_cmds o s' cs with
      | (s'', nr) => (s'', requested_refresh r || nr)

/-- Top-level events of one wake of the engine loop. -/
inductive WakeEvent where
  | refreshCall
  | publish
deriving DecidableEq

/-- The command-arrival branch of `SonosService::inner_loop`: process the
first received command, drain the pending ones, make one refresh call if
any command in the batch requested it, then publish one update. The
returned trace records the refresh calls and publishes performed. -/
def command_wake (o : DevOracle) (s : SonosService) (first : Action)
    (drained : List Action) : SonosService × List WakeEvent :=
  match process_cmds o s (first :: drained) with
  | (s1, needs_refresh) =>
    if needs_refresh then
      match refresh_state o s1 with
      | (s2, _) => (s2, [.refreshCall, .publish])
    else (s1, [.publish])

/-! ### Device resolution (`get_speakers`) -/

/-- Addresses are opaque to the resolution logic. -/
abbrev Ipv4Addr := String

/-- Outcome oracle for discovery: `from_ip` models
`Speaker::from_ip(addr)`, `find` models `sonor::find(name, timeout)`, and
`discover` models draining the `sonor::discover(timeout)` stream (any
mid-stream failure surfaces as an error for the whole drain). Resolved
speakers are represented by their UUID strings. -/
structure NetOracle where
  from_ip : Ipv4Addr → Except String (Option String)
  find : String → Except String (Option String)
  discover : Except String (List String)

/-- The address loop of `get_speakers`: `unwrap_or(None)` collapses an
error into `None`, so both errors and missing devices are dropped. -/
def resolve_ips (o : NetOracle) (ips : List Ipv4Addr) : List String :=
  ips.filterMap fun ip =>
    match o.from_ip ip with
    | .ok (some spk) => some spk
    | _ => none

/-- The name loop of `get_speakers`: `sonor::find(e, ...)?` propagates an
error (fatal), while an `Ok(None)` result is dropped. -/
def resolve_names (o : NetOracle) : List String → List String → Except String (List String)
  | acc, [] => .ok acc
  | acc, n :: rest =>
    match o.find n with
    | .error e => .error e
    | .ok (some spk) => resolve_names o (acc ++ [spk]) rest
    | .ok none => resolve_names o acc rest

/-- The speakers contributed by the name loop when no lookup errors: each
name's found device, with device-less names dropped. -/
def resolve_names_ok (o : NetOracle) (names : List String) : List String :=
  names.filterMap fun n =>
    match o.find n with
    | .ok (some spk) => some spk
    | _ => none

/-- Embedding of `get_speakers` from `src/sonos.rs`: connect to each provided address
(drop-on-failure), then look up each provided name (error propagates),
and only when both lists are empty fall back to broadcast discovery. The
function returns the collected list — possibly empty — on success. -/
def get_speakers (o : NetOracle) (ips : List Ipv4Addr) (names : List String) :
    Except String (List String) :=
  match resolve_names o (resolve_ips o ips) names with
  | .error e => .error e
  | .ok speakers =>
    if ips.isEmpty && names.isEmpty then
      match o.discover with
      | .error e => .error e
      | .ok ds => .ok (speakers ++ ds)
    else .ok speakers

/-! ### Favorites parsing -/

/-- Embedding of `extract_tag_content` from `src/sonos.rs`: content strictly between
the first occurrence of `start_tag` and the next occurrence of `end_tag`
after it. -/
def extract_tag_content (text start_tag end_tag : String) : Option String :=
  match findSub start_tag.toList text.toList with
  | none => none
  | some start =>
    let rest := text.toList.drop (start + start_tag.toList.length)
    match findSub end_tag.toList rest with
    | none => none
    | some e => some (String.mk (rest.take e))

/-- The URI extraction of `parse_favorite_playlists`: the `<res ...>`
block's content after its first `>` character, defaulting to `""`. -/
def extract_res_uri (item : String) : String :=
  match extract_tag_content item "<res" "</res>" with
  | none => ""
  | some res_block =>
    match findSub [Char.ofNat 62] res_block.toList with
    | none => ""
    | some i => String.mk (res_block.toList.drop (i + 1))

/-- The body of the `parse_favorite_playlists` loop for one item block:
`none` when the playlist filter rejects the item (`continue`). -/
def parse_item (item : String) : Option FavoritePlaylist :=
  let uri := extract_res_uri item
  let is_playlist := str_contains uri "playlist"
    || starts_with uri "x-rincon-cpcontainer:"
    || str_contains item "playlistContainer"
  if is_playlist then
    some
      { title := (extract_tag_content item "<dc:title>" "</dc:title>").getD "Unknown"
        description :=
          (extract_tag_content item "<r:description>" "</r:description>").getD ""
        uri := uri
        metadata := (extract_tag_content item "<r:resMD>" "</r:resMD>").getD "" }
  else none

/-- Embedding of `parse_favorite_playlists` from `src/sonos.rs`: split the blob at
every `"<item "`, skip the prelude before the first item, and keep the
item blocks that pass the playlist filter. -/
def parse_favorite_playlists (xml : String) : List FavoritePlaylist :=
  ((splitOnCL "<item ".toList xml.toList).drop 1).filterMap fun cs =>
    parse_item (String.mk cs)

/-- Written from the spec's words for the filtering rule (claim C7): an
item is retained iff its extracted resource URI contains `"playlist"`, or
starts with `"x-rincon-cpcontainer:"`, or the raw item text contains
`"playlistContainer"`. -/
def spec_retained (item : String) : Bool :=
  str_contains (extract_res_uri item) "playlist"
    || starts_with (extract_res_uri item) "x-rincon-cpcontainer:"
    || str_contains item "playlistContainer"

/-- Written from the spec's words (claim C7): the entry built for a
retained item, title defaulting to `"Unknown"` and description/metadata
to the empty string when their tags are absent. -/
def spec_entry (item : String) : FavoritePlaylist :=
  { title := (extract_tag_content item "<dc:title>" "</dc:title>").getD "Unknown"
    description := (extract_tag_content item "<r:description>" "</r:description>").getD ""
    uri := extract_res_uri item
    metadata := (extract_tag_content item "<r:resMD>" "</r:resMD>").getD "" }

/-- Written from the spec's words (claim C7): favorites parsing as
"filter the item blocks by the retention rule, then extract each retained
item's fields". -/
def spec_parse_favorites (xml : String) : List FavoritePlaylist :=
  (((splitOnCL "<item ".toList xml.toList).drop 1).map String.mk).filter spec_retained
    |>.map spec_entry

/-! ### Concrete instances used to witness the theorems -/

/-- A device oracle whose every call succeeds. -/
def stubDev : DevOracle :=
  { play := fun _ => .ok ()
    pause := fun _ => .ok ()
    next := fun _ => .ok ()
    previous := fun _ => .ok ()
    set_volume_relative := fun _ _ => .ok ()
    clear_queue := fun _ => .ok ()
    add_uri_action := fun _ _ => .ok ()
    queue_next := fun _ _ _ => .ok ()
    is_playing := fun _ => .ok true
    volume := fun _ => .ok 7
    track := fun _ => .ok none
    queue := fun _ => .ok [] }

/-- A device oracle whose volume query fails after a successful
`is_playing` query. -/
def failVolDev : DevOracle :=
  { stubDev with volume := fun _ => .error "boom" }

/-- A concrete container-scheme favorite. -/
def demoFav : FavoritePlaylist :=
  { title := "Morning"
    description := ""
    uri := "x-rincon-cpcontainer:1006206cplaylist42"
    metadata := "" }

/-- A concrete engine state: one single-speaker group, one favorite. -/
def demoState : SonosService :=
  { groups := [{ coordinator := "u1", speakers := [{ uuid := "u1", name := "Kitchen" }] }]
    selected_group := 0
    speakers_by_uuid := ["u1"]
    current_view := .Queue
    favorites := [demoFav]
    selected_favorite := 0
    cached_is_playing := false
    cached_volume := 0
    cached_now_playing := none
    cached_queue := [] }

/-- A discovery oracle: address "a" resolves, every other address errors,
name lookups fail with a network error. -/
def demoNet : NetOracle :=
  { from_ip := fun ip => if ip = "a" then .ok (some "s1") else .error "down"
    find := fun _ => .error "net down"
    discover := .ok [] }

/-- A discovery oracle whose name lookups complete without finding a
device (`Ok(None)`). -/
def quietNet : NetOracle :=
  { demoNet with find := fun _ => .ok none }

/-- A discovery oracle where the name "Good" resolves and every other
name lookup errors. -/
def mixedNet : NetOracle :=
  { demoNet with
      find := fun n => if n = "Good" then .ok (some "g1") else .error "net down" }

/-- A 2-item sample blob for claim C7: item A's resource URI contains
"playlist", item B's does not. -/
def sample_blob : String :=
  "prelude<item id=1><dc:title>A</dc:title><res protocolInfo=pi>x-file:a-playlist-1</res></item><item id=2><dc:title>B</dc:title><res>x-file:track-2</res></item>"

/-! ### Helper lemmas -/

/-- A `filterMap` by a function that filters with `p` and maps with `g` is
`filter` then `map`. -/
theorem filterMap_if {α β : Type} (p : α → Bool) (g : α → β) (f : α → Option β)
    (hf : ∀ a, f a = if p a then some (g a) else none) :
    ∀ l : List α, l.filterMap f = (l.filter p).map g
  | [] => rfl
  | a :: l => by
    rw [List.filterMap_cons, List.filter_cons, hf a]
    by_cases h : p a <;> simp [h, filterMap_if p g f hf l]

/-- The `needs_refresh` flag accumulated by the batching loop is true
exactly when some command's handler result requested a refresh. -/
theorem process_cmds_eq_any (o : DevOracle) :
    ∀ (cmds : List Action) (s : SonosService),
      (process_cmds o s cmds).2 = (batch_results o s cmds).any requested_refresh
  | [], _ => rfl
  | c :: cs, s => by
    simp only [process_cmds, batch_results, List.any_cons]
    rcases handle_command o s c with ⟨s', calls, r⟩
    have ih := process_cmds_eq_any o cs s'
    rcases hp : process_cmds o s' cs with ⟨s'', nr⟩
    rw [hp] at ih
    have hnr : nr = (batch_results o s' cs).any requested_refresh := ih
    rw [hnr]

/-- The helper `remove_coordinator` fails exactly when no member carries the
coordinator's UUID. -/
theorem remove_coordinator_none_iff (coordinator : String) :
    ∀ speakers : List SpeakerInfo,
      remove_coordinator coordinator speakers = none ↔
        ∀ si ∈ speakers, si.uuid ≠ coordinator
  | [] => by simp [remove_coordinator]
  | s :: rest => by
    have ih := remove_coordinator_none_iff coordinator rest
    simp only [remove_coordinator]
    by_cases h : s.uuid = coordinator
    · simp [h]
    · rcases hr : remove_coordinator coordinator rest with _ | ⟨c, rest'⟩ <;>
        simp [h, hr, ← ih]

/-- The member removed by `remove_coordinator` carries the coordinator's
UUID. -/
theorem remove_coordinator_some_uuid (coordinator : String) :
    ∀ (speakers : List SpeakerInfo) (c : SpeakerInfo) (rest : List SpeakerInfo),
      remove_coordinator coordinator speakers = some (c, rest) → c.uuid = coordinator := by
  intro speakers
  induction speakers with
  | nil => intro c rest h; simp [remove_coordinator] at h
  | cons s tl ih =>
    intro c rest h
    simp only [remove_coordinator] at h
    by_cases hs : s.uuid = coordinator
    · rw [if_pos hs] at h
      cases h
      exact hs
    · rw [if_neg hs] at h
      rcases hh : remove_coordinator coordinator tl with _ | p
      · rw [hh] at h; cases h
      · obtain ⟨c0, rest0⟩ := p
        rw [hh] at h
        injection h with h1
        injection h1 with hc hrest
        subst hc
        exact ih c0 rest0 hh

/-- When no name lookup errors, the helper `resolve_names` succeeds with
the accumulator extended by each name's found device (device-less names
dropped). -/
theorem resolve_names_no_error (o : NetOracle) :
    ∀ (names acc : List String),
      (∀ m ∈ names, ∀ e, o.find m ≠ .error e) →
      resolve_names o acc names = .ok (acc ++ resolve_names_ok o names)
  | [], acc, _ => by simp [resolve_names, resolve_names_ok]
  | n :: rest, acc, h => by
    have hrest : ∀ m ∈ rest, ∀ e, o.find m ≠ .error e :=
      fun m hm e => h m (by simp [hm]) e
    rcases hf : o.find n with e | r
    · exact absurd hf (h n (by simp) e)
    · rcases r with _ | spk
      · simp only [resolve_names, hf]
        rw [resolve_names_no_error o rest acc hrest]
        simp [resolve_names_ok, List.filterMap_cons, hf]
      · simp only [resolve_names, hf]
        rw [resolve_names_no_error o rest (acc ++ [spk]) hrest]
        simp [resolve_names_ok, List.filterMap_cons, hf]

/-- The helper `resolve_names` propagates the first name-lookup error,
wherever it sits in the list. -/
theorem resolve_names_first_error (o : NetOracle) :
    ∀ (pre : List String) (n : String) (rest acc : List String) (e : String),
      (∀ m ∈ pre, ∀ e2, o.find m ≠ .error e2) →
      o.find n = .error e →
      resolve_names o acc (pre ++ n :: rest) = .error e
  | [], n, rest, acc, e, _, hn => by simp [resolve_names, hn]
  | m :: pre, n, rest, acc, e, h, hn => by
    have hpre : ∀ m2 ∈ pre, ∀ e2, o.find m2 ≠ .error e2 :=
      fun m2 hm2 e2 => h m2 (by simp [hm2]) e2
    rcases hf : o.find m with e2 | r
    · exact absurd hf (h m (by simp) e2)
    · rcases r with _ | spk <;>
        simp only [List.cons_append, resolve_names, hf] <;>
        exact resolve_names_first_error o pre n rest _ e hpre hn

/-! ### Claims -/

/-- Claim C2 (code bug, evaluation at the failing input): with `G = 3`
groups and selected index `0`, `select_prev_group` yields `3`
(`groups.len()`), not the claimed `G − 1 = 2`; the `select_next_group`
half of the claim does hold (`2 ↦ 0`). -/
theorem select_prev_group_at_zero_eval :
    select_prev_group 3 0 = 3 ∧ select_next_group 3 2 = 0 := by decide

/-- Claim C3 (code bug, evaluation at the failing input): with `N = 1`
group, starting at index `0`, next-then-previous lands at `1`, not back at
the original `0`. -/
theorem select_next_then_prev_eval :
    select_next_group 1 0 = 0 ∧ select_prev_group 1 (select_next_group 1 0) = 1 := by
  decide

/-- Claim C8, counterexample: with an empty favorites list a Down command
leaves the index at `0`, which is not `< 0 = length`; and after a shrink
to length 1 with the index at 2, an Up command yields `1`, which is still
not `< 1` — navigation does not re-clamp the index below the length. -/
theorem navigate_favorites_cex :
    (navigate_favorites 0 Direction.Down 0 = 0 ∧
      ¬ navigate_favorites 0 Direction.Down 0 < 0) ∧
    (navigate_favorites 1 Direction.Up 2 = 1 ∧
      ¬ navigate_favorites 1 Direction.Up 2 < 1) := by decide

/-- One navigation step preserves being in range of a nonempty list. -/
theorem navigate_favorites_step (favLen : Nat) (d : Direction) (idx : Nat)
    (h : idx < favLen) : navigate_favorites favLen d idx < favLen := by
  cases d <;> simp only [navigate_favorites] <;> split <;> omega

/-- Claim C8 (amended): starting from an index within
`[0, favorites.length − 1]` of a nonempty favorites list, every sequence
of up/down navigation commands keeps the selected index within
`[0, favorites.length − 1]`. -/
theorem navigate_favorites_in_range (favLen idx : Nat) (h : idx < favLen) :
    ∀ dirs : List Direction,
      List.foldl (fun i d => navigate_favorites favLen d i) idx dirs < favLen
  | [] => h
  | d :: dirs =>
    navigate_favorites_in_range favLen _
      (navigate_favorites_step favLen d idx h) dirs

/-- Witness for C8's amended theorem at a concrete input. -/
theorem navigate_favorites_in_range_witness :
    2 < 3 ∧
      List.foldl (fun i d => navigate_favorites 3 d i) 2
        [Direction.Down, Direction.Up, Direction.Up] < 3 :=
  ⟨by decide, navigate_favorites_in_range 3 2 (by decide) _⟩

/-- Claim C9: constructing a `SpeakerGroup` whose coordinator UUID is
absent from the member list panics (`= none`); when present, the
resulting member list starts with the coordinator's member record and the
display name is the member names joined by `" + "`. -/
theorem speaker_group_new_spec (coordinator : String) (speakers : List SpeakerInfo) :
    (SpeakerGroup.new coordinator speakers = none ↔
      ∀ si ∈ speakers, si.uuid ≠ coordinator) ∧
    ∀ g, SpeakerGroup.new coordinator speakers = some g →
      (∃ c, g.speakers.head? = some c ∧ c.uuid = coordinator) ∧
      g.name = join_names (g.speakers.map SpeakerInfo.name) := by
  constructor
  · rw [← remove_coordinator_none_iff coordinator speakers]
    unfold SpeakerGroup.new
    rcases hr : remove_coordinator coordinator speakers with _ | ⟨c, rest⟩ <;> simp
  · intro g hg
    unfold SpeakerGroup.new at hg
    rcases hr : remove_coordinator coordinator speakers with _ | ⟨c, rest⟩ <;>
      rw [hr] at hg
    · cases hg
    · cases hg
      exact ⟨⟨c, rfl, remove_coordinator_some_uuid coordinator speakers c rest hr⟩, rfl⟩

/-- Witness for C9 at concrete inputs: an absent coordinator yields
`none`; a present coordinator is moved to the front and named. -/
theorem speaker_group_new_spec_witness :
    (SpeakerGroup.new "u9" [{ uuid := "u3", name := "B" }] = none) ∧
    ∃ g, SpeakerGroup.new "u2"
        [{ uuid := "u3", name := "B" }, { uuid := "u2", name := "A" }] = some g ∧
      (∃ c, g.speakers.head? = some c ∧ c.uuid = "u2") ∧
      g.name = join_names (g.speakers.map SpeakerInfo.name) := by
  constructor
  · exact (speaker_group_new_spec "u9" [{ uuid := "u3", name := "B" }]).1.mpr (by decide)
  · refine ⟨⟨"u2", [⟨"u2", "A"⟩, ⟨"u3", "B"⟩]⟩, by decide, ?_⟩
    exact (speaker_group_new_spec "u2"
      [{ uuid := "u3", name := "B" }, { uuid := "u2", name := "A" }]).2 _ (by decide)

/-- Claim C10: from any state with a nonempty group list and selection
index 0, one group-selection-previous command sets `selected_group` to
the number of groups, `build_state` copies that out-of-range index into
the snapshot, and `SpeakerState.group_name` on that snapshot indexes
`group_names` out of bounds (`none`, the panic). -/
theorem prev_from_zero_group_name_panics (o : DevOracle) (s : SonosService)
    (_hne : s.groups ≠ []) (hsel : s.selected_group = 0) :
    (handle_command o s Action.PrevSpeaker).1.selected_group = s.groups.length ∧
    (build_state (handle_command o s Action.PrevSpeaker).1).selected_group =
      s.groups.length ∧
    (build_state (handle_command o s Action.PrevSpeaker).1).group_name = none := by
  have hcmd : (handle_command o s Action.PrevSpeaker).1 =
      { s with selected_group := s.groups.length } := by
    simp [handle_command, select_prev_group, hsel]
  rw [hcmd]
  refine ⟨rfl, rfl, ?_⟩
  show (List.map SpeakerGroup.name s.groups)[s.groups.length]? = none
  apply List.getElem?_eq_none
  simp

/-- Witness for C10 at a concrete one-group state. -/
theorem prev_from_zero_group_name_panics_witness :
    demoState.groups ≠ [] ∧
    (build_state (handle_command stubDev demoState Action.PrevSpeaker).1).group_name =
      none :=
  ⟨by decide,
    (prev_from_zero_group_name_panics stubDev demoState (by decide) (by decide)).2.2⟩

/-- Claim C1, counterexample: when `is_playing` is fetched successfully
but the subsequent `volume` fetch fails, `refresh_state` returns an error
yet `cached_is_playing` has already been overwritten — the four cached
fields are not updated atomically. -/
theorem refresh_state_partial_update_cex :
    (refresh_state failVolDev demoState).2 = Except.error "boom" ∧
    (refresh_state failVolDev demoState).1.cached_is_playing ≠
      demoState.cached_is_playing :=
  ⟨rfl, by decide⟩

/-- Claim C1 (amended): a failing refresh leaves `cached_queue`
untouched, mutates nothing at all when the coordinator lookup itself
fails, and any other cached field either keeps its pre-call value or
holds exactly the value fetched by this same (failing) call — fields are
assigned one at a time in order, so a failure can leave a prefix of them
updated. -/
theorem refresh_state_error_sequential (o : DevOracle) (s : SonosService) (e : String)
    (herr : (refresh_state o s).2 = Except.error e) :
    (refresh_state o s).1.cached_queue = s.cached_queue ∧
    (current_speaker s = none → (refresh_state o s).1 = s) ∧
    ∀ uuid, current_speaker s = some uuid →
      ((refresh_state o s).1.cached_is_playing = s.cached_is_playing ∨
        o.is_playing uuid = .ok (refresh_state o s).1.cached_is_playing) ∧
      ((refresh_state o s).1.cached_volume = s.cached_volume ∨
        o.volume uuid = .ok (refresh_state o s).1.cached_volume) ∧
      ((refresh_state o s).1.cached_now_playing = s.cached_now_playing ∨
        o.track uuid = .ok (refresh_state o s).1.cached_now_playing) := by
  rcases hg : s.groups[s.selected_group]? with _ | g
  · simp [refresh_state, current_speaker, hg]
  · by_cases hm : g.coordinator ∈ s.speakers_by_uuid
    · rcases hip : o.is_playing g.coordinator with e1 | p
      · simp [refresh_state, current_speaker, hg, hm, hip]
      · rcases hv : o.volume g.coordinator with e2 | v
        · simp [refresh_state, current_speaker, hg, hm, hip, hv]
        · rcases ht : o.track g.coordinator with e3 | t
          · simp [refresh_state, current_speaker, hg, hm, hip, hv, ht]
          · rcases hq : o.queue g.coordinator with e4 | q
            · simp [refresh_state, current_speaker, hg, hm, hip, hv, ht, hq]
            · exfalso
              simp [refresh_state, hg, hm, hip, hv, ht, hq] at herr
    · simp [refresh_state, current_speaker, hg, hm]

/-- Witness for C1's amended theorem: at the concrete failing refresh the
cached queue is unchanged. -/
theorem refresh_state_error_sequential_witness :
    (refresh_state failVolDev demoState).1.cached_queue = demoState.cached_queue :=
  (refresh_state_error_sequential failVolDev demoState "boom" rfl).1

/-- Claim C6, counterexample: an address whose connection fails is
dropped, but a provided name whose discovery lookup fails makes the whole
resolution fail — a single name's failed lookup is fatal, nothing is
returned. -/
theorem get_speakers_name_error_cex :
    get_speakers demoNet ["10.0.0.9"] ["Kitchen"] = Except.error "net down" := rfl

/-- Claim C6 (amended): address lookups are drop-on-failure — when no
name lookup errors, resolution succeeds and returns exactly the addresses
that resolved followed by the names that found a device, even if that set
is empty; but an error in any provided name's discovery lookup (wherever
it sits in the list, every earlier name having completed) propagates and
fails the whole resolution step. -/
theorem get_speakers_policy (o : NetOracle) (ips : List Ipv4Addr) (names : List String) :
    ((∀ m ∈ names, ∀ e, o.find m ≠ .error e) → (ips ≠ [] ∨ names ≠ []) →
      get_speakers o ips names =
        .ok (resolve_ips o ips ++ resolve_names_ok o names)) ∧
    ∀ e n pre rest, names = pre ++ n :: rest →
      (∀ m ∈ pre, ∀ e2, o.find m ≠ .error e2) →
      o.find n = .error e →
      get_speakers o ips names = .error e := by
  constructor
  · intro hok hne
    have hb : (ips.isEmpty && names.isEmpty) = false := by
      rcases hne with h | h
      · have hi : ips.isEmpty = false := by
          cases ips
          · exact absurd rfl h
          · rfl
        simp [hi]
      · have hn : names.isEmpty = false := by
          cases names
          · exact absurd rfl h
          · rfl
        simp [hn]
    unfold get_speakers
    rw [resolve_names_no_error o names (resolve_ips o ips) hok]
    simp [hb]
  · intro e n pre rest hnames hpre hfind
    subst hnames
    unfold get_speakers
    rw [resolve_names_first_error o pre n rest (resolve_ips o ips) e hpre hfind]

/-- Witness for C6's amended theorem: a failing and a succeeding address
with a device-less name lookup yield the partial set; a name-lookup error
in second position, after a name that resolved, yields the error. -/
theorem get_speakers_policy_witness :
    get_speakers quietNet ["a", "b"] ["X"] = Except.ok ["s1"] ∧
    get_speakers mixedNet [] ["Good", "Bad"] = Except.error "net down" := by
  constructor
  · rw [(get_speakers_policy quietNet ["a", "b"] ["X"]).1
      (fun m _ e h => Except.noConfusion h) (Or.inl (by decide))]
    rfl
  · refine (get_speakers_policy mixedNet [] ["Good", "Bad"]).2 "net down" "Bad"
      ["Good"] [] rfl ?_ rfl
    intro m hm e2
    simp only [List.mem_singleton] at hm
    subst hm
    intro h
    exact Except.noConfusion h

/-- Claim C5: one command-arrival wake (first command plus the drained
batch) performs exactly one refresh call when some command's handling
requested a refresh and none otherwise — never more than one — and
publishes exactly one update. -/
theorem command_wake_coalesces (o : DevOracle) (s : SonosService) (first : Action)
    (drained : List Action) :
    ((command_wake o s first drained).2.count WakeEvent.refreshCall =
      if (batch_results o s (first :: drained)).any requested_refresh then 1 else 0) ∧
    (command_wake o s first drained).2.count WakeEvent.refreshCall ≤ 1 ∧
    (command_wake o s first drained).2.count WakeEvent.publish = 1 := by
  have hpc := process_cmds_eq_any o (first :: drained) s
  unfold command_wake
  rcases hp : process_cmds o s (first :: drained) with ⟨s1, needs⟩
  rw [hp] at hpc
  have hneeds : needs = (batch_results o s (first :: drained)).any requested_refresh := hpc
  cases needs with
  | false =>
    rw [← hneeds]
    simp
  | true =>
    rcases hr : refresh_state o s1 with ⟨s2, r⟩
    rw [← hneeds]
    simp

/-- Claim C4: handling `PlayFavorite(i)` for an existing favorite with a
selected group (and succeeding device calls): a container-scheme
unescaped URI issues exactly one add-to-queue action followed by one play
call and no queue-next/next calls; any other URI issues exactly one
queue-next call followed by one next call and no add-to-queue call. -/
theorem play_favorite_calls (o : DevOracle) (s : SonosService) (i : Nat)
    (fav : FavoritePlaylist) (uuid : String)
    (hfav : s.favorites[i]? = some fav)
    (hspk : current_speaker s = some uuid)
    (hadd : o.add_uri_action uuid (add_uri_payload fav) = .ok ())
    (hplay : o.play uuid = .ok ())
    (hqn : o.queue_next uuid (html_unescape fav.uri) (html_unescape fav.metadata) = .ok ())
    (hnext : o.next uuid = .ok ()) :
    (starts_with (html_unescape fav.uri) "x-rincon-cpcontainer:" = true →
      (handle_command o s (Action.PlayFavorite i)).2.1 =
        [DevCall.clearQueue uuid, DevCall.addURIToQueue uuid, DevCall.play uuid] ∧
      (handle_command o s (Action.PlayFavorite i)).2.1.count
        (DevCall.addURIToQueue uuid) = 1 ∧
      (handle_command o s (Action.PlayFavorite i)).2.1.count (DevCall.play uuid) = 1 ∧
      (handle_command o s (Action.PlayFavorite i)).2.1.count
        (DevCall.queueNext uuid) = 0 ∧
      (handle_command o s (Action.PlayFavorite i)).2.1.count (DevCall.next uuid) = 0) ∧
    (starts_with (html_unescape fav.uri) "x-rincon-cpcontainer:" = false →
      (handle_command o s (Action.PlayFavorite i)).2.1 =
        [DevCall.clearQueue uuid, DevCall.queueNext uuid, DevCall.next uuid] ∧
      (handle_command o s (Action.PlayFavorite i)).2.1.count
        (DevCall.queueNext uuid) = 1 ∧
      (handle_command o s (Action.PlayFavorite i)).2.1.count (DevCall.next uuid) = 1 ∧
      (handle_command o s (Action.PlayFavorite i)).2.1.count
        (DevCall.addURIToQueue uuid) = 0) := by
  constructor
  · intro hsw
    have ht : (handle_command o s (Action.PlayFavorite i)).2.1 =
        [DevCall.clearQueue uuid, DevCall.addURIToQueue uuid, DevCall.play uuid] := by
      simp [handle_command, hfav, hspk, hsw, hadd, hplay]
    refine ⟨ht, ?_⟩
    rw [ht]
    simp [List.count_cons]
  · intro hsw
    have ht : (handle_command o s (Action.PlayFavorite i)).2.1 =
        [DevCall.clearQueue uuid, DevCall.queueNext uuid, DevCall.next uuid] := by
      simp [handle_command, hfav, hspk, hsw, hqn, hnext]
    refine ⟨ht, ?_⟩
    rw [ht]
    simp [List.count_cons]

/-- Witness for C4 at the concrete container-scheme favorite. -/
theorem play_favorite_calls_witness :
    (handle_command stubDev demoState (Action.PlayFavorite 0)).2.1 =
      [DevCall.clearQueue "u1", DevCall.addURIToQueue "u1", DevCall.play "u1"] :=
  ((play_favorite_calls stubDev demoState 0 demoFav "u1" rfl (by decide)
      rfl rfl rfl rfl).1 (by decide)).1

/-- Claim C7: favorites parsing retains an item block exactly when its
extracted resource URI contains "playlist", or starts with
"x-rincon-cpcontainer:", or the raw item text contains
"playlistContainer" (i.e. it equals the spec's filter-then-extract
description), and on the 2-item sample blob it yields exactly item A's
title, description, URI and metadata with the documented defaults. -/
theorem parse_favorites_spec :
    (∀ xml, parse_favorite_playlists xml = spec_parse_favorites xml) ∧
    parse_favorite_playlists sample_blob =
      [{ title := "A", description := "", uri := "x-file:a-playlist-1",
         metadata := "" }] := by
  constructor
  · intro xml
    unfold parse_favorite_playlists spec_parse_favorites
    calc
      ((splitOnCL "<item ".toList xml.toList).drop 1).filterMap
          (fun cs => parse_item (String.mk cs))
        = (((splitOnCL "<item ".toList xml.toList).drop 1).map String.mk).filterMap
            parse_item := by
          rw [List.filterMap_map]
          rfl
      _ = ((((splitOnCL "<item ".toList xml.toList).drop 1).map String.mk).filter
            spec_retained).map spec_entry :=
          filterMap_if spec_retained spec_entry parse_item (fun a => rfl) _
  · decide

end Sinuous
